import Mathlib

/-!
Verification of the simfin API client (src/index.js): a shallow embedding of
its parameter-validation and request-construction layer, followed by theorems
settling the specification claims.

The client is a validate-then-fetch facade: each public method optionally
validates its arguments against a Joi schema and, on success, hands a route,
an HTTP method and a query-parameter map to a single request primitive
(makeRequest), which injects the access token and delegates to the HTTP
library. We embed everything up to the point where the request descriptor is
handed to the transport: a method is modelled as a function returning either
a validation error or the fully built request descriptor.
-/

namespace SimFin

/-- Values a JavaScript caller can pass where the source does not constrain
the type: strings, numbers (modelled as rationals; every numeric value the
client manipulates is exactly representable), booleans, null and undefined. -/
inductive JSVal where
  | str : String → JSVal
  | num : ℚ → JSVal
  | bool : Bool → JSVal
  | null : JSVal
  | undef : JSVal
deriving DecidableEq

/-- JavaScript truthiness: empty string, zero, false, null and undefined are
falsy; every other value of these types is truthy. -/
def truthy : JSVal → Bool
  | .str s => s != ""
  | .num q => decide (q ≠ 0)
  | .bool b => b
  | .null => false
  | .undef => false

/-- Digit run to a natural number, for the decimal parser. -/
def digitsToNat (l : List Char) : Nat :=
  l.foldl (fun acc c => acc * 10 + (c.toNat - 48)) 0

/-- Core of the decimal numeral parser: an optional integer part, optionally
followed by a dot and a fractional part, at least one digit in total. -/
def parseDecimalCore (l : List Char) : Option ℚ :=
  let intPart := l.takeWhile Char.isDigit
  let rest := l.dropWhile Char.isDigit
  match rest with
  | [] => if intPart.isEmpty then none else some ((digitsToNat intPart : ℚ))
  | '.' :: fracPart =>
      if fracPart.all Char.isDigit && !(intPart.isEmpty && fracPart.isEmpty) then
        some ((digitsToNat intPart : ℚ) +
          (digitsToNat fracPart : ℚ) / ((10 : ℚ) ^ fracPart.length))
      else none
  | _ => none

/-- String-to-number conversion as Joi applies it (convert option, on by
default) for plain signed decimal numerals; exotic numeral forms the client
never produces (exponents, hex, surrounding whitespace) are not modelled and
parse as none. -/
def parseDecimal (s : String) : Option ℚ :=
  match s.data with
  | '-' :: rest => (parseDecimalCore rest).map Neg.neg
  | '+' :: rest => parseDecimalCore rest
  | l => parseDecimalCore l

/-- Rendering of a JavaScript value inside a template literal, as in the
route strings of the facade. A number renders in decimal; only integral
numbers reach an interpolation site in the validated methods, so the
non-integral branch is unreachable there. -/
def jsNumToString (q : ℚ) : String :=
  if q.den = 1 then toString q.num
  else toString q.num ++ "/" ++ toString q.den

/-- Template-literal rendering of an arbitrary JavaScript value. -/
def jsValToString : JSVal → String
  | .str s => s
  | .num q => jsNumToString q
  | .bool b => cond b "true" "false"
  | .null => "null"
  | .undef => "undefined"

/-! ## The Joi parameter schemas (simfinParameters, src/index.js lines 85-97) -/

/-- The statementTypes constant of the source. -/
def statementTypes : List String := ["pl", "bs", "cf"]

/-- The periodTypes constant of the source. -/
def periodTypes : List String := ["Q1", "Q2", "Q3", "Q4", "H1", "H2", "9M", "FY"]

/-- One character of the Joi alphanum class, the regex class of a-z, A-Z
and 0-9. -/
def isAlphanumChar (c : Char) : Bool := c.isAlpha || c.isDigit

/-- Joi schema for ticker: alphanumeric string of length 2 to 10
(Joi.string().alphanum().min(2).max(10)). -/
def tickerValid (s : String) : Bool :=
  s.data.all isAlphanumChar && decide (2 ≤ s.length) && decide (s.length ≤ 10)

/-- Joi schema for companyId on a numeric value: Joi.number().integer(). -/
def companyIdValid (q : ℚ) : Bool := q.den == 1

/-- Joi.number().integer() applied to an arbitrary present JavaScript value,
with the convert option: a string parsing as an integral decimal numeral is
accepted; booleans and null are rejected; an undefined value is treated by
Joi as absent and vacuously passes an optional per-field schema. -/
def joiNumberInteger : JSVal → Bool
  | .num q => q.den == 1
  | .str s =>
      match parseDecimal s with
      | some q => q.den == 1
      | none => false
  | .bool _ => false
  | .null => false
  | .undef => true

/-- One indicator code, the regex of the source: a category digit 0 to 4, a
dash, then one or two digits. -/
def indicatorItemValid (s : String) : Bool :=
  match s.data with
  | c :: '-' :: ds =>
      ('0' ≤ c && c ≤ '4') &&
      (match ds with
       | [d] => d.isDigit
       | [d, e] => d.isDigit && e.isDigit
       | _ => false)
  | _ => false

/-- Joi schema for statementType: a string among statementTypes. -/
def statementTypeValid (s : String) : Bool := statementTypes.contains s

/-- The fractional alternatives of the TTM regex: 0, 25, 5, 50 or 75. -/
def ttmFracValid (l : List Char) : Bool :=
  l = ['0'] || l = ['2', '5'] || l = ['5'] || l = ['5', '0'] || l = ['7', '5']

/-- The offset part of the TTM regex after the dash: one or two digits,
optionally followed by a dot and one of the fractional alternatives. -/
def ttmOffsetValid : List Char → Bool
  | [d] => d.isDigit
  | [d, e] => d.isDigit && e.isDigit
  | d :: '.' :: fr => d.isDigit && ttmFracValid fr
  | d :: e :: '.' :: fr => d.isDigit && e.isDigit && ttmFracValid fr
  | _ => false

/-- The anchored TTM regex of the source: TTM, optionally followed by a dash
and an offset. -/
def ttmValid (s : String) : Bool :=
  match s.data with
  | ['T', 'T', 'M'] => true
  | 'T' :: 'T' :: 'M' :: '-' :: rest => ttmOffsetValid rest
  | _ => false

/-- Joi schema for periodType: alternatives of the fixed periodTypes set and
the TTM pattern. -/
def periodTypeValid (s : String) : Bool := periodTypes.contains s || ttmValid s

/-- Joi schema for fiscalYear: Joi.number().integer().min(1900).max(2018). -/
def fiscalYearValid (q : ℚ) : Bool :=
  q.den == 1 && decide ((1900 : ℚ) ≤ q) && decide (q ≤ (2018 : ℚ))

/-! ## Composite schemas and Joi.validate results

Joi.validate returns an object whose error field is null on success and a
validation error on failure; with the default abortEarly behaviour the error
names the first failing field in schema order. We model the error field as
an Option String carrying the offending field name. -/

/-- Joi.validate of a ticker against simfinParameters.ticker. -/
def tickerValidate (ticker : String) : Option String :=
  if tickerValid ticker then none else some "ticker"

/-- Joi.validate of a statement request object against
statementRequestSchema: companyId, statementType, periodType and fiscalYear
all required and individually valid. -/
def statementRequestValidate (companyId : ℚ) (statementType periodType : String)
    (fiscalYear : ℚ) : Option String :=
  if !companyIdValid companyId then some "companyId"
  else if !statementTypeValid statementType then some "statementType"
  else if !periodTypeValid periodType then some "periodType"
  else if !fiscalYearValid fiscalYear then some "fiscalYear"
  else none

/-- Joi.validate of a ratios request object against
ttmFinancialRatiosRequestSchema: companyId required and valid; indicators
optional (none models an undefined argument) but, when present, every item
must match the indicator pattern. -/
def ttmRequestValidate (companyId : ℚ) (indicators : Option (List String)) :
    Option String :=
  if !companyIdValid companyId then some "companyId"
  else
    match indicators with
    | none => none
    | some l => if l.all indicatorItemValid then none else some "indicators"

/-! ## Request construction -/

/-- A query-parameter value: the client only ever places strings and numbers
in the query map. -/
inductive QVal where
  | str : String → QVal
  | num : ℚ → QVal
deriving DecidableEq

/-- The request descriptor handed to the HTTP library: method, full uri and
the query-parameter object, kept in insertion order. -/
structure Request where
  method : String
  uri : String
  qs : List (String × QVal)
deriving DecidableEq

/-- Lookup in a JavaScript object modelled as an insertion-ordered
association list: a later binding of a key shadows an earlier one, exactly
as in an object literal built with spread. -/
def objGet : List (String × QVal) → String → Option QVal
  | [], _ => none
  | p :: l, k =>
      match objGet l k with
      | some v => some v
      | none => if p.1 == k then some p.2 else none

/-- The base URL set by the constructor. -/
def baseURL : String := "https://simfin.com/api/v1/"

/-- makeRequest: builds the options object with uri = baseURL + route and
qs the object literal holding the api-key token binding first, then the
spread of the caller params (so a caller binding of the same key shadows
the token). A call site that omits params passes the empty list, matching
the spread of undefined. -/
def makeRequest (token route method : String) (params : List (String × QVal)) :
    Request :=
  { method := method
    uri := baseURL ++ route
    qs := ("api-key", QVal.str token) :: params }

/-! ## The facade methods -/

/-- getCompanyIdByTicker: validates the ticker against the ticker schema,
rejects on error, otherwise issues a GET on the find-id-by-ticker route. -/
def getCompanyIdByTicker (token ticker : String) : Except String Request :=
  match tickerValidate ticker with
  | some e => .error e
  | none => .ok (makeRequest token ("info/find-id/ticker/" ++ ticker) "GET" [])

/-- getCompanyIdByName: no validation in the source; always issues a GET on
the name-search route. -/
def getCompanyIdByName (token name : String) : Request :=
  makeRequest token ("info/find-id/name-search/" ++ name) "GET" []

/-- getAllCompanies: always issues a GET on the all-entities route. -/
def getAllCompanies (token : String) : Request :=
  makeRequest token "info/all-entities" "GET" []

/-- getCompanyDataById: no validation in the source; the companyId argument
is interpolated into the route as-is, whatever its type. -/
def getCompanyDataById (token : String) (companyId : JSVal) : Request :=
  makeRequest token ("companies/id/" ++ jsValToString companyId) "GET" []

/-- getAvailableCompanyStatements: no validation in the source. -/
def getAvailableCompanyStatements (token : String) (companyId : JSVal) : Request :=
  makeRequest token ("companies/id/" ++ jsValToString companyId ++ "/statements/list")
    "GET" []

/-- getStatementData: validates the four named arguments against the
statement request schema and rejects on error; otherwise builds the query
from statementType, periodType and fiscalYear and picks the route suffix by
the truthiness of the standardised argument, which is not validated. The
argument defaults to false in the source, which in JavaScript fires exactly
when the caller passes undefined. -/
def getStatementData (token : String) (companyId : ℚ)
    (statementType periodType : String) (fiscalYear : ℚ)
    (standardised : JSVal) : Except String Request :=
  match statementRequestValidate companyId statementType periodType fiscalYear with
  | some e => .error e
  | none =>
      let std := if standardised = JSVal.undef then JSVal.bool false else standardised
      let params : List (String × QVal) :=
        [("stype", QVal.str statementType),
         ("ptype", QVal.str periodType),
         ("fyear", QVal.num fiscalYear)]
      let url := "companies/id/" ++ jsNumToString companyId ++ "/statements/"
      let url := if truthy std then url ++ "standardised" else url ++ "original"
      .ok (makeRequest token url "GET" params)

/-- getTTMFinancialRatios: validates companyId and the optional indicators
array against the ratios schema and rejects on error; otherwise, since any
array (even an empty one) is truthy in JavaScript, a present indicators
argument yields a query binding of the comma-joined items, and an absent
one yields no params at all. -/
def getTTMFinancialRatios (token : String) (companyId : ℚ)
    (indicators : Option (List String)) : Except String Request :=
  match ttmRequestValidate companyId indicators with
  | some e => .error e
  | none =>
      let params : List (String × QVal) :=
        match indicators with
        | some l => [("indicators", QVal.str (String.intercalate "," l))]
        | none => []
      .ok (makeRequest token ("companies/id/" ++ jsNumToString companyId ++ "/ratios")
        "GET" params)

/-- The static indicatorsMap constant of the source, transcribed entry for
entry in source order. -/
def indicatorsMap : List (String × String) :=
  [("0-3", "Number of employees"),
   ("0-5", "Founding year"),
   ("0-6", "Headquarter location"),
   ("0-73", "Sector classification"),
   ("0-71", "Ticker"),
   ("0-31", "Last closing price"),
   ("4-11", "Market capitalisation"),
   ("0-64", "Common shares outstanding"),
   ("0-65", "Preferred shares outstanding"),
   ("0-66", "Average shares outstanding, basic"),
   ("0-67", "Average shares outstanding, diluted"),
   ("1-1", "Revenues"),
   ("1-2", "Cost of goods sold"),
   ("1-4", "Gross profit"),
   ("1-11", "Operating expenses"),
   ("1-12", "Selling, general and administrative"),
   ("1-15", "Research and development expenses"),
   ("1-19", "Operating income (EBIT)"),
   ("4-10", "EBITDA"),
   ("1-21", "Net interest expense"),
   ("1-28", "Pretax income (adjusted)"),
   ("1-43", "Pretax income"),
   ("1-44", "Income taxes"),
   ("1-49", "Income from continuing operations"),
   ("1-58", "Net income (common shareholders)"),
   ("2-1", "Cash and cash-equivalents"),
   ("2-5", "Net receivables"),
   ("2-21", "Total current assets"),
   ("2-22", "Net property, plant and equipment"),
   ("2-41", "Total assets"),
   ("2-43", "Accounts payable"),
   ("2-47", "Current debt"),
   ("2-57", "Total current liabilities"),
   ("2-58", "Non current debt"),
   ("4-6", "Total debt"),
   ("2-73", "Total liabilities"),
   ("2-74", "Preferred equity"),
   ("2-76", "Common stock"),
   ("2-82", "Equity before minorities"),
   ("2-83", "Minority interest"),
   ("3-2", "Depreciation and amortisation"),
   ("3-7", "Change in working capital"),
   ("3-13", "Operating cash flow"),
   ("3-14", "Net change in PP & E and intangibles"),
   ("3-31", "Investing cash flow"),
   ("3-32", "Dividends paids"),
   ("3-43", "Financing cash flow"),
   ("3-46", "Net change in cash"),
   ("4-25", "Free cash flow"),
   ("4-0", "Gross margin"),
   ("4-1", "Operating margin"),
   ("4-2", "Net profit margin"),
   ("4-7", "Return on equity"),
   ("4-9", "Return on assets"),
   ("4-28", "Free cash flow to net income"),
   ("4-3", "Current ratio"),
   ("4-4", "Liabilities to equity ratio"),
   ("4-5", "Debt to assets ratio"),
   ("4-12", "Earnings per share, basic"),
   ("4-13", "Earnings per share, diluted"),
   ("4-17", "Sales per share"),
   ("4-18", "Book value per share"),
   ("4-26", "Free cash flow per share"),
   ("4-29", "Dividends per share"),
   ("4-14", "Price to earnings ratio"),
   ("4-15", "Price to sales ratio"),
   ("4-16", "Price to book value"),
   ("4-27", "Price to free cash flow"),
   ("4-20", "Enterprise value"),
   ("4-21", "EV/EBITDA"),
   ("4-22", "EV/Sales"),
   ("4-31", "EV/FCF"),
   ("4-23", "Book to market value"),
   ("4-24", "Operating income / EV"),
   ("4-30", "Pietroski F-Score")]

/-- getFinancialIndicators: returns the static indicatorsMap constant;
no request is built. -/
def getFinancialIndicators : List (String × String) := indicatorsMap

/-- getStatementTypes: returns the static statementTypes constant. -/
def getStatementTypes : List String := statementTypes

/-- getPeriodTypes: returns the static periodTypes constant. -/
def getPeriodTypes : List String := periodTypes


theorem statementTypeValid_iff (s : String) :
    statementTypeValid s = true ↔ s ∈ statementTypes := by
  simp [statementTypeValid]

theorem periodTypeValid_iff (s : String) :
    periodTypeValid s = true ↔ s ∈ periodTypes ∨ ttmValid s = true := by
  simp [periodTypeValid]

theorem fiscalYearValid_iff (q : ℚ) :
    fiscalYearValid q = true ↔ q.den = 1 ∧ 1900 ≤ q ∧ q ≤ 2018 := by
  simp [fiscalYearValid, and_assoc]

theorem tickerValid_iff (s : String) :
    tickerValid s = true ↔
      s.data.all isAlphanumChar = true ∧ 2 ≤ s.length ∧ s.length ≤ 10 := by
  simp [tickerValid, and_assoc]

theorem statementRequestValidate_eq_none_iff (c : ℚ) (st pt : String) (fy : ℚ) :
    statementRequestValidate c st pt fy = none ↔
      companyIdValid c = true ∧ statementTypeValid st = true ∧
      periodTypeValid pt = true ∧ fiscalYearValid fy = true := by
  unfold statementRequestValidate
  split_ifs <;> simp_all

theorem ttmRequestValidate_eq_none_iff (c : ℚ) (inds : Option (List String)) :
    ttmRequestValidate c inds = none ↔
      companyIdValid c = true ∧ (inds.getD []).all indicatorItemValid = true := by
  unfold ttmRequestValidate
  cases inds <;> split_ifs <;> simp_all

theorem getStatementData_ok_iff (token : String) (c : ℚ) (st pt : String)
    (fy : ℚ) (std : JSVal) :
    (∃ r, getStatementData token c st pt fy std = .ok r) ↔
      statementRequestValidate c st pt fy = none := by
  unfold getStatementData
  cases h : statementRequestValidate c st pt fy <;> simp [h]

theorem getTTMFinancialRatios_ok_iff (token : String) (c : ℚ)
    (inds : Option (List String)) :
    (∃ r, getTTMFinancialRatios token c inds = .ok r) ↔
      ttmRequestValidate c inds = none := by
  unfold getTTMFinancialRatios
  cases h : ttmRequestValidate c inds <;> simp [h]

theorem getCompanyIdByTicker_ok_iff (token ticker : String) :
    (∃ r, getCompanyIdByTicker token ticker = .ok r) ↔ tickerValid ticker = true := by
  unfold getCompanyIdByTicker tickerValidate
  cases h : tickerValid ticker <;> simp [h]


/-- C2: for every route, method and caller parameter map, the query object
built by makeRequest binds the key api-key to the configured token, unless
the caller map itself binds api-key, in which case the caller value wins
(the token binding comes first and the params are spread after it). -/
theorem c2_api_key_injection (token route method : String)
    (params : List (String × QVal)) :
    objGet (makeRequest token route method params).qs "api-key" =
      some ((objGet params "api-key").getD (QVal.str token)) := by
  show objGet (("api-key", QVal.str token) :: params) "api-key" = _
  cases h : objGet params "api-key" <;> simp [objGet, h]

/-- C3: for every valid companyId, getStatementData with arguments pl, FY,
2017 and a true flag builds a GET on the standardised-statements
route with query stype pl, ptype FY, fyear 2017, and the same call with the
flag omitted (undefined) builds the original-statements route with the same
query. -/
theorem c3_statement_routes (token : String) (companyId : ℚ)
    (h : companyIdValid companyId = true) :
    getStatementData token companyId "pl" "FY" 2017 (JSVal.bool true) =
      .ok { method := "GET"
            uri := baseURL ++ ("companies/id/" ++ jsNumToString companyId ++
              "/statements/" ++ "standardised")
            qs := [("api-key", QVal.str token), ("stype", QVal.str "pl"),
                   ("ptype", QVal.str "FY"), ("fyear", QVal.num 2017)] } ∧
    getStatementData token companyId "pl" "FY" 2017 JSVal.undef =
      .ok { method := "GET"
            uri := baseURL ++ ("companies/id/" ++ jsNumToString companyId ++
              "/statements/" ++ "original")
            qs := [("api-key", QVal.str token), ("stype", QVal.str "pl"),
                   ("ptype", QVal.str "FY"), ("fyear", QVal.num 2017)] } := by
  have hv : statementRequestValidate companyId "pl" "FY" 2017 = none := by
    unfold statementRequestValidate
    rw [h]
    decide
  constructor <;> · simp only [getStatementData, hv]; rfl

theorem c3_statement_routes_witness :
    getStatementData "tok" 111 "pl" "FY" 2017 (JSVal.bool true) =
      .ok { method := "GET"
            uri := "https://simfin.com/api/v1/companies/id/111/statements/standardised"
            qs := [("api-key", QVal.str "tok"), ("stype", QVal.str "pl"),
                   ("ptype", QVal.str "FY"), ("fyear", QVal.num 2017)] } ∧
    getStatementData "tok" 111 "pl" "FY" 2017 JSVal.undef =
      .ok { method := "GET"
            uri := "https://simfin.com/api/v1/companies/id/111/statements/original"
            qs := [("api-key", QVal.str "tok"), ("stype", QVal.str "pl"),
                   ("ptype", QVal.str "FY"), ("fyear", QVal.num 2017)] } := by
  exact c3_statement_routes "tok" 111 (by decide)

/-- C4: for every fiscalYear outside the integer range 1900 to 2018, with
the other statement arguments arbitrary, getStatementData rejects with a
validation error and builds no request; the same holds for every
statementType outside the set of pl, bs and cf. -/
theorem c4_invalid_year_or_type_rejected (token : String) (companyId : ℚ)
    (st pt : String) (fy : ℚ) (std : JSVal)
    (h : ¬ (fy.den = 1 ∧ 1900 ≤ fy ∧ fy ≤ 2018) ∨ st ∉ statementTypes) :
    ∃ e, getStatementData token companyId st pt fy std = .error e := by
  have hv : statementRequestValidate companyId st pt fy ≠ none := by
    intro hnone
    obtain ⟨hc, hst, hpt, hfy⟩ :=
      (statementRequestValidate_eq_none_iff companyId st pt fy).mp hnone
    rcases h with h | h
    · exact h ((fiscalYearValid_iff fy).mp hfy)
    · exact h ((statementTypeValid_iff st).mp hst)
  obtain ⟨e, he⟩ := Option.ne_none_iff_exists'.mp hv
  exact ⟨e, by simp [getStatementData, he]⟩

theorem c4_invalid_year_or_type_rejected_witness :
    (∃ e, getStatementData "tok" 1 "pl" "FY" 1899 (JSVal.bool false) = .error e) ∧
    (∃ e, getStatementData "tok" 1 "xx" "FY" 2017 (JSVal.bool false) = .error e) :=
  ⟨c4_invalid_year_or_type_rejected "tok" 1 "pl" "FY" 1899 (JSVal.bool false)
      (Or.inl (by decide)),
   c4_invalid_year_or_type_rejected "tok" 1 "xx" "FY" 2017 (JSVal.bool false)
      (Or.inr (by decide))⟩

/-- C5: for every ticker string that is not alphanumeric or whose length is
outside 2 to 10, getCompanyIdByTicker rejects with a validation error and
builds no request; for every alphanumeric ticker of length 2 to 10 it
builds a GET on the find-id-by-ticker route for that ticker. -/
theorem c5_ticker_validation (token ticker : String) :
    (¬ (ticker.data.all isAlphanumChar = true ∧ 2 ≤ ticker.length ∧
          ticker.length ≤ 10) →
      ∃ e, getCompanyIdByTicker token ticker = .error e) ∧
    ((ticker.data.all isAlphanumChar = true ∧ 2 ≤ ticker.length ∧
          ticker.length ≤ 10) →
      getCompanyIdByTicker token ticker =
        .ok { method := "GET"
              uri := baseURL ++ ("info/find-id/ticker/" ++ ticker)
              qs := [("api-key", QVal.str token)] }) := by
  constructor
  · intro hbad
    have hv : tickerValid ticker = false := by
      cases hval : tickerValid ticker
      · rfl
      · exact absurd ((tickerValid_iff ticker).mp hval) hbad
    exact ⟨"ticker", by simp [getCompanyIdByTicker, tickerValidate, hv]⟩
  · intro hgood
    have hv : tickerValid ticker = true := (tickerValid_iff ticker).mpr hgood
    simp [getCompanyIdByTicker, tickerValidate, hv, makeRequest]

theorem c5_ticker_validation_witness :
    (∃ e, getCompanyIdByTicker "tok" "a!" = .error e) ∧
    getCompanyIdByTicker "tok" "AAPL" =
      .ok { method := "GET"
            uri := "https://simfin.com/api/v1/info/find-id/ticker/AAPL"
            qs := [("api-key", QVal.str "tok")] } := by
  constructor
  · exact (c5_ticker_validation "tok" "a!").1 (by decide)
  · exact (c5_ticker_validation "tok" "AAPL").2 (by decide)

/-- C6: with the other statement arguments valid, getStatementData accepts
a periodType string, building a request, exactly when it lies in the fixed
set Q1, Q2, Q3, Q4, H1, H2, 9M, FY or matches the anchored TTM-offset
pattern; every other periodType makes the call reject with a validation
error and build no request. -/
theorem c6_period_type_acceptance (token : String) (companyId : ℚ)
    (st pt : String) (fy : ℚ) (std : JSVal)
    (hc : companyIdValid companyId = true) (hst : statementTypeValid st = true)
    (hfy : fiscalYearValid fy = true) :
    (∃ r, getStatementData token companyId st pt fy std = .ok r) ↔
      (pt ∈ periodTypes ∨ ttmValid pt = true) := by
  rw [getStatementData_ok_iff, statementRequestValidate_eq_none_iff,
    ← periodTypeValid_iff]
  simp [hc, hst, hfy]

theorem c6_period_type_acceptance_witness :
    (∃ r, getStatementData "tok" 1 "pl" "TTM-4.25" 2017 (JSVal.bool false) = .ok r) ∧
    ¬ (∃ r, getStatementData "tok" 1 "pl" "TTM-123" 2017 (JSVal.bool false) = .ok r) := by
  constructor
  · exact (c6_period_type_acceptance "tok" 1 "pl" "TTM-4.25" 2017 (JSVal.bool false)
      (by decide) (by decide) (by decide)).mpr (by decide)
  · intro hex
    have h := (c6_period_type_acceptance "tok" 1 "pl" "TTM-123" 2017 (JSVal.bool false)
      (by decide) (by decide) (by decide)).mp hex
    exact absurd h (by decide)

/-- C7: for every integer companyId and every non-empty indicators array
whose items all match the indicator pattern, getTTMFinancialRatios builds a
GET on the ratios route for that companyId whose query binds indicators to
the items joined by commas. -/
theorem c7_ttm_ratios_query (token : String) (companyId : ℚ)
    (inds : List String) (hne : inds ≠ [])
    (hc : companyIdValid companyId = true)
    (hinds : inds.all indicatorItemValid = true) :
    getTTMFinancialRatios token companyId (some inds) =
      .ok { method := "GET"
            uri := baseURL ++ ("companies/id/" ++ jsNumToString companyId ++ "/ratios")
            qs := [("api-key", QVal.str token),
                   ("indicators", QVal.str (String.intercalate "," inds))] } := by
  have hv : ttmRequestValidate companyId (some inds) = none := by
    simp [ttmRequestValidate, hc, hinds]
  simp only [getTTMFinancialRatios, hv]
  rfl

theorem c7_ttm_ratios_query_witness :
    getTTMFinancialRatios "tok" 55 (some ["1-1", "2-1"]) =
      .ok { method := "GET"
            uri := "https://simfin.com/api/v1/companies/id/55/ratios"
            qs := [("api-key", QVal.str "tok"),
                   ("indicators", QVal.str "1-1,2-1")] } := by
  exact c7_ttm_ratios_query "tok" 55 ["1-1", "2-1"] (by decide) (by decide) (by decide)

/-- C9: for every integer companyId, getTTMFinancialRatios applied to the
empty indicators array passes validation and builds a GET on the ratios
route whose query binds indicators to the empty string: the empty array is
truthy in JavaScript, so it counts as provided, not as omitted. -/
theorem c9_empty_indicators_query (token : String) (companyId : ℚ)
    (hc : companyIdValid companyId = true) :
    getTTMFinancialRatios token companyId (some []) =
      .ok { method := "GET"
            uri := baseURL ++ ("companies/id/" ++ jsNumToString companyId ++ "/ratios")
            qs := [("api-key", QVal.str token), ("indicators", QVal.str "")] } := by
  have hv : ttmRequestValidate companyId (some []) = none := by
    simp [ttmRequestValidate, hc]
  simp only [getTTMFinancialRatios, hv]
  rfl

theorem c9_empty_indicators_query_witness :
    getTTMFinancialRatios "tok" 7 (some []) =
      .ok { method := "GET"
            uri := "https://simfin.com/api/v1/companies/id/7/ratios"
            qs := [("api-key", QVal.str "tok"), ("indicators", QVal.str "")] } := by
  exact c9_empty_indicators_query "tok" 7 (by decide)

/-- C10: whenever the named statement arguments pass validation, the route
suffix of getStatementData is chosen purely by the JavaScript truthiness of
the unvalidated standardised argument: any truthy value of any type (for
example the string "false" or the number 1) yields the standardised
statements route, and any falsy value (false, 0, null, undefined, the empty
string) yields the original statements route. -/
theorem c10_standardised_truthiness (token : String) (companyId : ℚ)
    (st pt : String) (fy : ℚ) (std : JSVal)
    (hv : statementRequestValidate companyId st pt fy = none) :
    getStatementData token companyId st pt fy std =
      .ok { method := "GET"
            uri := baseURL ++ ("companies/id/" ++ jsNumToString companyId ++
              "/statements/" ++
              (if truthy std then "standardised" else "original"))
            qs := [("api-key", QVal.str token), ("stype", QVal.str st),
                   ("ptype", QVal.str pt), ("fyear", QVal.num fy)] } := by
  have hstd : truthy (if std = JSVal.undef then JSVal.bool false else std) =
      truthy std := by
    cases std <;> rfl
  simp only [getStatementData, hv, hstd]
  cases truthy std <;> rfl

theorem c10_standardised_truthiness_witness :
    getStatementData "tok" 2 "bs" "Q1" 2000 (JSVal.str "false") =
      .ok { method := "GET"
            uri := "https://simfin.com/api/v1/companies/id/2/statements/standardised"
            qs := [("api-key", QVal.str "tok"), ("stype", QVal.str "bs"),
                   ("ptype", QVal.str "Q1"), ("fyear", QVal.num 2000)] } ∧
    getStatementData "tok" 2 "bs" "Q1" 2000 (JSVal.num 0) =
      .ok { method := "GET"
            uri := "https://simfin.com/api/v1/companies/id/2/statements/original"
            qs := [("api-key", QVal.str "tok"), ("stype", QVal.str "bs"),
                   ("ptype", QVal.str "Q1"), ("fyear", QVal.num 2000)] } := by
  constructor
  · exact c10_standardised_truthiness "tok" 2 "bs" "Q1" 2000 (JSVal.str "false")
      (by decide)
  · exact c10_standardised_truthiness "tok" 2 "bs" "Q1" 2000 (JSVal.num 0)
      (by decide)

/-- C1, as stated, is false: getCompanyDataById performs no validation, so
it issues a request whose route embeds a companyId value (here null) that
fails the declared integer constraint on companyId. -/
theorem c1_counterexample :
    getCompanyDataById "tok" JSVal.null =
      { method := "GET"
        uri := "https://simfin.com/api/v1/companies/id/null"
        qs := [("api-key", QVal.str "tok")] } ∧
    joiNumberInteger JSVal.null = false := by
  constructor <;> rfl

/-- C1 amended: the no-invalid-field-ever-issued invariant holds for the
validating operations. Whenever getCompanyIdByTicker, getStatementData or
getTTMFinancialRatios actually builds a request, every field value embedded
in its route or query satisfies its declared per-field schema constraint;
the unvalidated operations getCompanyIdByName and getCompanyDataById are
excluded, as the counterexample shows they must be. -/
theorem c1_validated_requests_respect_schema
    (token ticker : String) (companyId : ℚ) (st pt : String) (fy : ℚ)
    (std : JSVal) (cid : ℚ) (inds : Option (List String)) (r1 r2 r3 : Request)
    (h1 : getCompanyIdByTicker token ticker = .ok r1)
    (h2 : getStatementData token companyId st pt fy std = .ok r2)
    (h3 : getTTMFinancialRatios token cid inds = .ok r3) :
    tickerValid ticker = true ∧
    (companyIdValid companyId = true ∧ statementTypeValid st = true ∧
      periodTypeValid pt = true ∧ fiscalYearValid fy = true) ∧
    (companyIdValid cid = true ∧ (inds.getD []).all indicatorItemValid = true) := by
  refine ⟨?_, ?_, ?_⟩
  · exact (getCompanyIdByTicker_ok_iff token ticker).mp ⟨r1, h1⟩
  · exact (statementRequestValidate_eq_none_iff companyId st pt fy).mp
      ((getStatementData_ok_iff token companyId st pt fy std).mp ⟨r2, h2⟩)
  · exact (ttmRequestValidate_eq_none_iff cid inds).mp
      ((getTTMFinancialRatios_ok_iff token cid inds).mp ⟨r3, h3⟩)

theorem c1_validated_requests_respect_schema_witness :
    tickerValid "AAPL" = true ∧
    (companyIdValid 111 = true ∧ statementTypeValid "pl" = true ∧
      periodTypeValid "FY" = true ∧ fiscalYearValid 2017 = true) ∧
    (companyIdValid 55 = true ∧
      ((some ["1-1"] : Option (List String)).getD []).all indicatorItemValid = true) :=
  c1_validated_requests_respect_schema "tok" "AAPL" 111 "pl" "FY" 2017
    (JSVal.bool true) 55 (some ["1-1"]) _ _ _ rfl rfl rfl

/-- C8, as stated, is false on the entry count: the static indicator
catalog returned by getFinancialIndicators holds 75 entries, not 80. -/
theorem c8_counterexample :
    getFinancialIndicators.length = 75 ∧ getFinancialIndicators.length ≠ 80 := by
  constructor <;> decide

/-- C8 amended: the static indicator catalog returned by
getFinancialIndicators contains exactly 75 distinct entries, every key
matching the category-dash-index pattern with category between 0 and 4, and
the operation builds no request and returns the same constant mapping on
every invocation. -/
theorem c8_indicator_catalog :
    getFinancialIndicators.length = 75 ∧
    (getFinancialIndicators.map Prod.fst).all indicatorItemValid = true ∧
    (getFinancialIndicators.map Prod.fst).Nodup ∧
    getFinancialIndicators = indicatorsMap :=
  ⟨by decide, by decide, by decide, rfl⟩

end SimFin
